import Mathlib

/-!
Verification of the `django-coralogix-otel` repository: a shallow Lean
embedding of its configuration, resource-building, middleware and
entrypoint logic, with theorems settling the specified behavioural claims.

Conventions of the embedding:
* Python strings are modelled as `String` / `List Char` (the latter where
  character-level splitting and stripping matters).
* Python dicts with string keys are modelled as association lists in
  insertion order; `dinsert` mirrors `d[k] = v` (replace in place or
  append), `dget` mirrors `d.get(k)`, `dictUpdate` mirrors `d.update(m)`.
* The process environment is a function `String → Option String`
  (`os.getenv` returns `None` for an unset variable).
* Side effects that the claims talk about (installed providers, registered
  exporters, executed subprocesses) are made explicit as state values or
  traces; logging calls are not modelled.
-/

/-! ## Python dictionary primitives -/

/-- Python dict lookup `d.get(key)` on an insertion-ordered assoc list. -/
def dget : List (String × String) → String → Option String
  | [], _ => Option.none
  | (k, v) :: rest, key => if k = key then some v else dget rest key

/-- Python dict assignment `d[key] = val`: replace the binding in place if
the key is present, otherwise append it at the end. -/
def dinsert : List (String × String) → String → String → List (String × String)
  | [], key, val => [(key, val)]
  | (k, v) :: rest, key, val =>
    if k = key then (k, val) :: rest else (k, v) :: dinsert rest key val

/-- Python `base.update(m)`: insert every entry of `m` into `base`, in
order, later entries overriding earlier ones. -/
def dictUpdate (base m : List (String × String)) : List (String × String) :=
  m.foldl (fun acc kv => dinsert acc kv.1 kv.2) base

/-- Lookup returning the LAST binding of a key (the one that survives
repeated dict insertion). -/
def lookupLast : List (String × String) → String → Option String
  | [], _ => Option.none
  | (k, v) :: rest, key =>
    match lookupLast rest key with
    | some w => some w
    | Option.none => if k = key then some v else Option.none

/-! ## Python string primitives -/

/-- Python `s.strip()`: remove whitespace from both ends. -/
def pyStrip (l : List Char) : List Char :=
  ((l.dropWhile Char.isWhitespace).reverse.dropWhile Char.isWhitespace).reverse

/-- Python `s.split(c, 1)` for a separator that occurs in `s`: the part
before the first occurrence of `c` and the part after it. -/
def splitFirst (c : Char) : List Char → List Char × List Char
  | [] => ([], [])
  | a :: rest =>
    if a = c then ([], rest)
    else
      let kv := splitFirst c rest
      (a :: kv.1, kv.2)

/-! ## Environment reader (`os.getenv`) -/

/-- A snapshot of the process environment. -/
abbrev Env := String → Option String

/-- `os.getenv(name, default)`. -/
def getenvD (env : Env) (name default : String) : String :=
  (env name).getD default

/-! ## `django_coralogix_otel/utils.py` -/

/-- Loop body of `_parse_k8s_resource_attributes`: for one comma-separated
segment, if it contains `=`, split on the first `=`, strip both sides and
insert into the dict; otherwise skip the segment. -/
def processSegment (acc : List (String × String)) (pair : List Char) :
    List (String × String) :=
  if '=' ∈ pair then
    let kv := splitFirst '=' pair
    dinsert acc (String.mk (pyStrip kv.1)) (String.mk (pyStrip kv.2))
  else acc

/-- Parsing core shared by `utils._parse_k8s_resource_attributes` and
`config.get_resource`: split the attribute string on `,`, then each
segment on its first `=`, stripping whitespace around key and value;
segments without `=` are skipped. -/
def parseAttrs (s : List Char) : List (String × String) :=
  (s.splitOn ',').foldl processSegment []

/-- `utils._parse_k8s_resource_attributes`: read
`OTEL_RESOURCE_ATTRIBUTES` (default `""`); an empty value yields the empty
dict (Python truthiness check `if not resource_attrs`), otherwise parse.
The `try/except` around the loop is modelled as absent: the parsing loop
is total and cannot raise. -/
def _parse_k8s_resource_attributes (env : Env) : List (String × String) :=
  let resource_attrs := getenvD env "OTEL_RESOURCE_ATTRIBUTES" ""
  if resource_attrs = "" then [] else parseAttrs resource_attrs.data

/-- The literal base dict built at the top of
`utils.get_resource_attributes` from the explicit named environment
variables (with their defaults). -/
def utilsBaseAttributes (env : Env) : List (String × String) :=
  [("service.name", getenvD env "OTEL_SERVICE_NAME" "django-application"),
   ("service.namespace", getenvD env "OTEL_SERVICE_NAMESPACE" "default"),
   ("service.version", getenvD env "OTEL_SERVICE_VERSION" "1.0.0"),
   ("deployment.environment", getenvD env "OTEL_DEPLOYMENT_ENVIRONMENT" "development"),
   ("coralogix.application", getenvD env "CORALOGIX_APPLICATION_NAME" "django-app"),
   ("coralogix.subsystem", getenvD env "CORALOGIX_SUBSYSTEM_NAME" "backend")]

/-- `utils.get_resource_attributes`: build the base dict from named
environment variables, then `attributes.update(k8s_attributes)` with the
parsed `OTEL_RESOURCE_ATTRIBUTES` entries.  The final `None`-filter of the
source is a no-op here because every modelled value is a string
(`os.getenv` with a default never returns `None`). -/
def get_resource_attributes (env : Env) : List (String × String) :=
  dictUpdate (utilsBaseAttributes env) (_parse_k8s_resource_attributes env)

/-- Python `f-string` interpolation of an `os.getenv` result: `None`
renders as the literal string `"None"`. -/
def pyStrOfOpt : Option String → String
  | some s => s
  | Option.none => "None"

/-- `utils.get_coralogix_headers`: the three Coralogix OTLP headers. The
`Authorization` value interpolates `os.getenv('CORALOGIX_PRIVATE_KEY')`
(which may be `None`) into `f"Bearer {...}"`. -/
def get_coralogix_headers (env : Env) : List (String × String) :=
  [("Authorization", "Bearer " ++ pyStrOfOpt (env "CORALOGIX_PRIVATE_KEY")),
   ("CX-Application-Name", getenvD env "CORALOGIX_APPLICATION_NAME" "django-app"),
   ("CX-Subsystem-Name", getenvD env "CORALOGIX_SUBSYSTEM_NAME" "backend")]

/-! ## `django_coralogix_otel/config.py` -/

/-- `config.get_resource`: parse `OTEL_RESOURCE_ATTRIBUTES` (only when
truthy), build the Coralogix default dict (whose `cx.*` entries consult
the parsed dict first), then `default_attributes.update(resource_attributes)`.
`Resource.create` is modelled as the attribute dict itself; the SDK-added
defaults are opaque and irrelevant to the claims. -/
def get_resource (env : Env) : List (String × String) :=
  let service_name := getenvD env "OTEL_SERVICE_NAME" "django-service"
  let resource_attributes :=
    match env "OTEL_RESOURCE_ATTRIBUTES" with
    | some s => if s = "" then [] else parseAttrs s.data
    | Option.none => []
  let default_attributes :=
    [("service.name", service_name),
     ("service.version", getenvD env "OTEL_SERVICE_VERSION" "1.0.0"),
     ("service.namespace", getenvD env "OTEL_SERVICE_NAMESPACE" "default"),
     ("deployment.environment", getenvD env "APP_ENVIRONMENT" "production"),
     ("cx.application.name", (dget resource_attributes "cx.application.name").getD service_name),
     ("cx.subsystem.name", (dget resource_attributes "cx.subsystem.name").getD (service_name ++ "-backend"))]
  dictUpdate default_attributes resource_attributes

/-- An exporter registered on a provider: either the network OTLP exporter
(with its final endpoint) or the local console exporter. -/
inductive ExporterKind where
  | otlp (endpoint : List Char)
  | console
deriving DecidableEq

/-- The SDK `TracerProvider` as far as this code observes it: its resource
attributes and the span processors (exporters) registered on it. -/
structure TracerProviderSt where
  resource : List (String × String)
  span_processors : List ExporterKind
deriving DecidableEq

/-- The SDK `MeterProvider`: resource attributes and metric readers. -/
structure MeterProviderSt where
  resource : List (String × String)
  metric_readers : List ExporterKind
deriving DecidableEq

/-- Process-wide OpenTelemetry state: the providers installed via
`trace.set_tracer_provider` / `metrics.set_meter_provider`.  `none` models
the SDK default proxy provider, which has no `resource` attribute. -/
structure OtelState where
  tracer_provider : Option TracerProviderSt
  meter_provider : Option MeterProviderSt
deriving DecidableEq

/-- The probe `hasattr(current_provider, "resource") and
current_provider.resource` of `config.setup_tracing`: false on the default
proxy provider (no `resource` attribute); otherwise the truthiness of the
resource's attribute dict. -/
def tracerProviderHasResource (s : OtelState) : Bool :=
  match s.tracer_provider with
  | Option.none => false
  | some p => !p.resource.isEmpty

/-- The same probe in `config.setup_metrics`, on the meter provider. -/
def meterProviderHasResource (s : OtelState) : Bool :=
  match s.meter_provider with
  | Option.none => false
  | some p => !p.resource.isEmpty

/-- Signal suffix appended to the trace endpoint in `setup_tracing`. -/
def tracesSuffix : List Char := "/v1/traces".data

/-- Signal suffix appended to the metric endpoint in `setup_metrics`. -/
def metricsSuffix : List Char := "/v1/metrics".data

/-- Endpoint normalization of `config.setup_tracing` / `setup_metrics`:
if the endpoint does not already end with the signal suffix, strip one
trailing `/` (if any) and append the suffix.  `e.endswith(x)` is the list
suffix test. -/
def normalizeEndpoint (sfx e : List Char) : List Char :=
  if sfx <:+ e then e
  else (if ['/'] <:+ e then e.dropLast else e) ++ sfx

/-- Reading of `os.getenv("OTEL_EXPORTER_OTLP_ENDPOINT")` followed by the
Python truthiness test `if otlp_endpoint:` — an unset or empty variable
selects the console branch. -/
def truthyEnv (env : Env) (name : String) : Option String :=
  match env name with
  | some s => if s = "" then Option.none else some s
  | Option.none => Option.none

/-- `config.setup_tracing`.  `mkSpanExporter` models the
`OTLPSpanExporter(...)` constructor, the single fallible step of the
`try` block; `Except.error` is the exception it may raise, which the source
catches and answers with the console fallback on the same provider.
Output is the new process state: the function is total, so no exception
escapes to the caller. -/
def setup_tracing (env : Env) (mkSpanExporter : List Char → Except String Unit)
    (s : OtelState) : OtelState :=
  let resource := get_resource env
  if tracerProviderHasResource s then s
  else
    match truthyEnv env "OTEL_EXPORTER_OTLP_ENDPOINT" with
    | some e =>
      let ep := normalizeEndpoint tracesSuffix e.data
      match mkSpanExporter ep with
      | Except.ok _ =>
        { tracer_provider := some ⟨resource, [ExporterKind.otlp ep]⟩,
          meter_provider := s.meter_provider }
      | Except.error _ =>
        { tracer_provider := some ⟨resource, [ExporterKind.console]⟩,
          meter_provider := s.meter_provider }
    | Option.none =>
      { tracer_provider := some ⟨resource, [ExporterKind.console]⟩,
        meter_provider := s.meter_provider }

/-- `config.setup_metrics`, same structure on the metrics signal;
`mkMetricExporter` models the `OTLPMetricExporter(...)` constructor. -/
def setup_metrics (env : Env) (mkMetricExporter : List Char → Except String Unit)
    (s : OtelState) : OtelState :=
  let resource := get_resource env
  if meterProviderHasResource s then s
  else
    match truthyEnv env "OTEL_EXPORTER_OTLP_ENDPOINT" with
    | some e =>
      let ep := normalizeEndpoint metricsSuffix e.data
      match mkMetricExporter ep with
      | Except.ok _ =>
        { tracer_provider := s.tracer_provider,
          meter_provider := some ⟨resource, [ExporterKind.otlp ep]⟩ }
      | Except.error _ =>
        { tracer_provider := s.tracer_provider,
          meter_provider := some ⟨resource, [ExporterKind.console]⟩ }
    | Option.none =>
      { tracer_provider := s.tracer_provider,
        meter_provider := some ⟨resource, [ExporterKind.console]⟩ }

/-! ## `django_coralogix_otel/middleware.py` -/

/-- The parts of Django's `request.META` read by `_get_client_ip`. -/
structure RequestMeta where
  http_x_forwarded_for : Option String
  remote_addr : Option String

/-- `OpenTelemetryMiddleware._get_client_ip`: first comma-separated entry
of `HTTP_X_FORWARDED_FOR`, stripped, when that header is present and
truthy; else `META.get('REMOTE_ADDR', 'unknown')`. -/
def get_client_ip (meta : RequestMeta) : String :=
  match meta.http_x_forwarded_for with
  | some x =>
    if x = "" then (meta.remote_addr).getD "unknown"
    else String.mk (pyStrip ((x.data.splitOn ',').headD []))
  | Option.none => (meta.remote_addr).getD "unknown"

/-- Modelled from the spec: the user object consulted by the tested
middleware revision's `get_user_id` / `get_username` helpers.  Those
helpers are exercised by `src/tests/test_middleware_fix.py` but are absent
from the packaged `middleware.py`; only their tests ship.  Spec: "Derive
user id/username defensively: only if an authenticated-user object is
present and its `is_authenticated` flag is true; otherwise empty string —
never raise for anonymous or missing user objects." -/
structure UserObj where
  is_authenticated : Bool
  user_id : Int
  username : String

/-- Modelled from the spec (missing from the packaged middleware, tested
by `test_get_user_id_*`): user-id extraction.  `none` models a request
without a `user` attribute.  Total, hence never raises. -/
def get_user_id (u : Option UserObj) : String :=
  match u with
  | some x => if x.is_authenticated then toString x.user_id else ""
  | Option.none => ""

/-- Modelled from the spec (missing from the packaged middleware):
username extraction, same defensive rule. -/
def get_username (u : Option UserObj) : String :=
  match u with
  | some x => if x.is_authenticated then x.username else ""
  | Option.none => ""

/-- A Python value as it may reach a span-attribute write: a primitive
scalar (`str`, `int`, `bool`, `None`) or a composite (`dict`, `list`).
Floats are not modelled. -/
inductive PyValue where
  | str (s : String)
  | int (n : Int)
  | bool (b : Bool)
  | none
  | dict (entries : List (String × PyValue))
  | list (elems : List PyValue)

/-- The apostrophe character (Python repr quotes strings with it). -/
def squote : Char := Char.ofNat 39

/-- Opening curly brace character. -/
def lcurly : Char := Char.ofNat 123

/-- Closing curly brace character. -/
def rcurly : Char := Char.ofNat 125

/-- Python `", ".join` over already rendered items. -/
def pyJoin : List (List Char) → List Char
  | [] => []
  | [x] => x
  | x :: rest => x ++ ',' :: ' ' :: pyJoin rest

mutual
/-- Python `repr` (= `str` on dict/list) of a `PyValue`. -/
def pyRepr : PyValue → List Char
  | .str s => squote :: s.data ++ [squote]
  | .int n => (toString n).data
  | .bool true => "True".data
  | .bool false => "False".data
  | .none => "None".data
  | .dict es => lcurly :: pyJoin (pyReprEntries es) ++ [rcurly]
  | .list xs => '[' :: pyJoin (pyReprElems xs) ++ [']']

/-- Rendered `key: value` items of a dict repr. -/
def pyReprEntries : List (String × PyValue) → List (List Char)
  | [] => []
  | (k, v) :: rest => (squote :: k.data ++ squote :: ':' :: ' ' :: pyRepr v) :: pyReprEntries rest

/-- Rendered items of a list repr. -/
def pyReprElems : List PyValue → List (List Char)
  | [] => []
  | v :: rest => pyRepr v :: pyReprElems rest
end

/-- The `isinstance(value, (str, int, float, bool)) or value is None` test
of the tested middleware's `_safe_set_attribute`. -/
def isPrimitiveScalar : PyValue → Bool
  | .str _ => true
  | .int _ => true
  | .bool _ => true
  | .none => true
  | .dict _ => false
  | .list _ => false

/-- Modelled from the spec (missing from the packaged middleware, tested
by `test_safe_set_attribute_*`): `_safe_set_attribute` — the (key, value)
pair actually handed to `span.set_attribute`.  Spec: "only primitive
scalar values (string, number, boolean, none) are set directly; composite
values (mapping, sequence) are stringified before being set." -/
def safe_set_attribute (key : String) (v : PyValue) : String × PyValue :=
  if isPrimitiveScalar v then (key, v)
  else (key, PyValue.str (String.mk (pyRepr v)))

/-! ## `django_coralogix_otel/entrypoint.py` -/

/-- Outcome of spawning one subprocess: it ran and exited with a code, or
the executable was not found (`FileNotFoundError`). -/
inductive ExecResult where
  | exited (code : Int)
  | notFound
deriving DecidableEq

/-- Oracle assigning to every command line the behaviour of running it. -/
abbrev Exec := List String → ExecResult

/-- How a call in the entrypoint terminates: a normal Python `return code`,
or process termination via `sys.exit(code)`. -/
inductive CmdOutcome where
  | ret (code : Int)
  | sysExit (code : Int)
deriving DecidableEq

/-- `entrypoint.run_django_command`: prepend `opentelemetry-instrument`
and run with `check=True`.  A zero exit returns `0`; a non-zero exit
raises `CalledProcessError`, which the function itself catches and turns
into `return e.returncode`; a missing launcher is `sys.exit(1)`. -/
def run_django_command (ex : Exec) (cmd_args : List String) : CmdOutcome :=
  match ex ("opentelemetry-instrument" :: cmd_args) with
  | ExecResult.exited c => CmdOutcome.ret c
  | ExecResult.notFound => CmdOutcome.sysExit 1

/-- The `for cmd in commands:` loop of `entrypoint.setup_django`, together
with the trace of commands it actually dispatched.  The loop calls
`run_django_command(cmd)` and DISCARDS its return value; its
`except subprocess.CalledProcessError` clause is unreachable because
`run_django_command` already catches that exception.  Only the `sys.exit`
of a missing launcher stops the loop. -/
def runSetupCommands (ex : Exec) : List (List String) → CmdOutcome × List (List String)
  | [] => (CmdOutcome.ret 0, [])
  | cmd :: rest =>
    match run_django_command ex cmd with
    | CmdOutcome.sysExit k => (CmdOutcome.sysExit k, [cmd])
    | CmdOutcome.ret _ =>
      let r := runSetupCommands ex rest
      (r.1, cmd :: r.2)

/-- The schema-migration command of `setup_django`. -/
def migrateCmd : List String := ["python", "manage.py", "migrate", "--no-input"]

/-- The static-collection command of `setup_django`. -/
def collectstaticCmd : List String := ["python", "manage.py", "collectstatic", "--no-input"]

/-- The optional queue-setup command of `setup_django`. -/
def kafkaSetupCmd : List String := ["python", "manage.py", "kafka_setup"]

/-- The probe `python manage.py help kafka_setup` run (without the
launcher wrapper) to decide whether the queue-setup command exists. -/
def kafkaHelpCmd : List String := ["python", "manage.py", "help", "kafka_setup"]

/-- `entrypoint.setup_django`: skip everything when
`SKIP_DJANGO_SETUP == "true"`; otherwise run migrate, then collectstatic,
then (if the probe exits 0) kafka_setup, via `run_django_command`, and
return 0.  Result: the outcome and the trace of dispatched commands. -/
def setup_django (env : Env) (ex : Exec) : CmdOutcome × List (List String) :=
  if env "SKIP_DJANGO_SETUP" = some "true" then (CmdOutcome.ret 0, [])
  else
    let commands := [migrateCmd, collectstaticCmd] ++
      (match ex kafkaHelpCmd with
       | ExecResult.exited 0 => [kafkaSetupCmd]
       | _ => [])
    runSetupCommands ex commands

/-- Canonical rendering `key=value` of one attribute pair. -/
def segOf (p : String × String) : List Char := p.1.data ++ '=' :: p.2.data

/-- Canonical comma-separated rendering of a list of attribute pairs
(the `"a=1,b=2"` form of the spec). -/
def segString (ps : List (String × String)) : List Char :=
  [','].intercalate (ps.map segOf)

/-- A pair is clean when its key contains no comma, no equals sign and no
whitespace, and its value contains no comma and no whitespace. -/
def CleanPair (p : String × String) : Prop :=
  (',' ∉ p.1.data ∧ '=' ∉ p.1.data ∧ ∀ c ∈ p.1.data, c.isWhitespace = false) ∧
  (',' ∉ p.2.data ∧ ∀ c ∈ p.2.data, c.isWhitespace = false)

/-- Decidability of `CleanPair`, so witnesses can be checked by `decide`. -/
instance (p : String × String) : Decidable (CleanPair p) := by
  unfold CleanPair
  infer_instance

/-! ## Concrete inputs used by witnesses and counterexamples -/

/-- An environment with no variable set. -/
def envEmpty : Env := fun _ => Option.none

/-- Exporter constructor that always succeeds. -/
def mkExporterOk : List Char → Except String Unit := fun _ => Except.ok ()

/-- Exporter constructor that always raises. -/
def mkExporterFail : List Char → Except String Unit := fun _ => Except.error "boom"

/-- The pristine process state: no provider installed for either signal. -/
def stateFresh : OtelState :=
  { tracer_provider := Option.none, meter_provider := Option.none }

/-- A state in which both providers are installed with a non-empty
resource. -/
def stateConfigured : OtelState :=
  { tracer_provider := some ⟨[("service.name", "x")], [ExporterKind.console]⟩,
    meter_provider := some ⟨[("service.name", "x")], [ExporterKind.console]⟩ }

/-- Environment for the C2 witness: only the OTLP endpoint is set. -/
def envC2 : Env := fun k =>
  if k = "OTEL_EXPORTER_OTLP_ENDPOINT" then some "http://collector:4317"
  else Option.none

/-- Subprocess oracle for the C3 failing input: the wrapped migration
command exits 1, the queue-setup probe fails (command absent), everything
else exits 0. -/
def exMigrateFails : Exec := fun cmd =>
  if cmd = "opentelemetry-instrument" :: migrateCmd then ExecResult.exited 1
  else if cmd = kafkaHelpCmd then ExecResult.exited 1
  else ExecResult.exited 0

/-- Environment for the C4 counterexample: the explicit service-name
variable says `foo`, the parsed attribute string says `bar`. -/
def envC4 : Env := fun k =>
  if k = "OTEL_SERVICE_NAME" then some "foo"
  else if k = "OTEL_RESOURCE_ATTRIBUTES" then some "service.name=bar"
  else Option.none

/-! ## Lemmas about the dictionary model -/

theorem dictUpdate_nil (base : List (String × String)) : dictUpdate base [] = base := rfl

theorem dictUpdate_cons (base : List (String × String)) (a : String × String)
    (rest : List (String × String)) :
    dictUpdate base (a :: rest) = dictUpdate (dinsert base a.1 a.2) rest := rfl

theorem dinsert_ne_nil (d : List (String × String)) (k v : String) :
    dinsert d k v ≠ [] := by
  cases d with
  | nil => simp [dinsert]
  | cons a rest =>
    obtain ⟨k1, v1⟩ := a
    simp only [dinsert]
    split <;> simp

theorem dictUpdate_ne_nil (m base : List (String × String)) (h : base ≠ []) :
    dictUpdate base m ≠ [] := by
  induction m generalizing base with
  | nil => simpa [dictUpdate_nil] using h
  | cons a rest ih =>
    rw [dictUpdate_cons]
    exact ih _ (dinsert_ne_nil base a.1 a.2)

theorem dget_dinsert (d : List (String × String)) (k v key : String) :
    dget (dinsert d k v) key = if k = key then some v else dget d key := by
  induction d with
  | nil => simp [dinsert, dget]
  | cons a rest ih =>
    obtain ⟨k1, v1⟩ := a
    simp only [dinsert]
    by_cases h1 : k1 = k
    · subst h1
      simp only [if_pos rfl, dget]
      by_cases h2 : k1 = key <;> simp [h2]
    · have h1' : ¬k = k1 := fun hh => h1 hh.symm
      rw [if_neg h1]
      simp only [dget, ih]
      by_cases h2 : k1 = key
      · subst h2
        simp [if_neg h1']
      · by_cases h3 : k = key <;> simp [h2, h3]

theorem dget_dictUpdate (m base : List (String × String)) (key : String) :
    dget (dictUpdate base m) key =
      match lookupLast m key with
      | some v => some v
      | Option.none => dget base key := by
  induction m generalizing base with
  | nil => simp [dictUpdate_nil, lookupLast]
  | cons a rest ih =>
    obtain ⟨k1, v1⟩ := a
    rw [dictUpdate_cons, ih]
    simp only [lookupLast]
    cases h : lookupLast rest key with
    | some w => simp
    | none =>
      simp only [dget_dinsert]
      split_ifs with hk <;> simp

theorem dget_eq_none_of_not_mem (d : List (String × String)) (key : String)
    (h : key ∉ d.map Prod.fst) : dget d key = Option.none := by
  induction d with
  | nil => rfl
  | cons a rest ih =>
    obtain ⟨k1, v1⟩ := a
    simp only [List.map_cons, List.mem_cons] at h
    push_neg at h
    have h1' : ¬k1 = key := fun hh => h.1 hh.symm
    simp only [dget, if_neg h1']
    exact ih h.2

theorem lookupLast_eq_dget (d : List (String × String)) (key : String)
    (h : (d.map Prod.fst).Nodup) : lookupLast d key = dget d key := by
  induction d with
  | nil => rfl
  | cons a rest ih =>
    obtain ⟨k1, v1⟩ := a
    simp only [List.map_cons, List.nodup_cons] at h
    have hrest := ih h.2
    simp only [lookupLast, dget, hrest]
    by_cases hk : k1 = key
    · subst hk
      rw [dget_eq_none_of_not_mem rest k1 h.1]
    · cases hd : dget rest key
      · simp [hk]
      · simp [hk]

theorem dkeys_dinsert (d : List (String × String)) (k v : String) :
    (dinsert d k v).map Prod.fst =
      if k ∈ d.map Prod.fst then d.map Prod.fst else d.map Prod.fst ++ [k] := by
  induction d with
  | nil => simp [dinsert]
  | cons a rest ih =>
    obtain ⟨k1, v1⟩ := a
    simp only [dinsert]
    by_cases h1 : k1 = k
    · subst h1
      simp
    · have h1' : ¬k = k1 := fun hh => h1 hh.symm
      rw [if_neg h1]
      simp only [List.map_cons, ih, List.mem_cons]
      by_cases h2 : k ∈ rest.map Prod.fst
      · simp [h2, h1']
      · simp [h2, h1']

theorem nodup_dkeys_dinsert (d : List (String × String)) (k v : String)
    (h : (d.map Prod.fst).Nodup) : ((dinsert d k v).map Prod.fst).Nodup := by
  rw [dkeys_dinsert]
  split
  · exact h
  · next hk => simp [List.nodup_append, h, hk]

theorem dinsert_of_not_mem (d : List (String × String)) (k v : String)
    (h : k ∉ d.map Prod.fst) : dinsert d k v = d ++ [(k, v)] := by
  induction d with
  | nil => rfl
  | cons a rest ih =>
    obtain ⟨k1, v1⟩ := a
    simp only [List.map_cons, List.mem_cons] at h
    push_neg at h
    have h1' : ¬k1 = k := fun hh => h.1 hh.symm
    simp only [dinsert, if_neg h1']
    rw [ih h.2]
    simp

theorem dictUpdate_append_of_nodup (ps base : List (String × String))
    (h : ((base ++ ps).map Prod.fst).Nodup) : dictUpdate base ps = base ++ ps := by
  induction ps generalizing base with
  | nil => simp [dictUpdate_nil]
  | cons a rest ih =>
    obtain ⟨k, v⟩ := a
    rw [dictUpdate_cons]
    have hmem : k ∉ base.map Prod.fst := by
      simp only [List.map_append, List.nodup_append, List.map_cons] at h
      intro hk
      exact h.2.2 hk (List.mem_cons_self _ _)
    rw [dinsert_of_not_mem base k v hmem]
    have hre : base ++ [(k, v)] ++ rest = base ++ (k, v) :: rest := by simp
    rw [ih (base ++ [(k, v)]) (by rw [hre]; exact h), hre]

theorem dictUpdate_nil_of_nodup (ps : List (String × String))
    (h : (ps.map Prod.fst).Nodup) : dictUpdate [] ps = ps := by
  simpa using dictUpdate_append_of_nodup ps [] (by simpa using h)

/-! ## Lemmas about the string primitives -/

theorem dropWhile_eq_self_of_all {p : Char → Bool} {l : List Char}
    (h : ∀ c ∈ l, p c = false) : l.dropWhile p = l := by
  cases l with
  | nil => rfl
  | cons a rest =>
    rw [List.dropWhile_cons, if_neg]
    simp [h a (List.mem_cons_self a rest)]

theorem pyStrip_eq_self {l : List Char}
    (h : ∀ c ∈ l, c.isWhitespace = false) : pyStrip l = l := by
  unfold pyStrip
  rw [dropWhile_eq_self_of_all h]
  rw [dropWhile_eq_self_of_all (fun c hc => h c (List.mem_reverse.mp hc))]
  exact List.reverse_reverse l

theorem splitFirst_sep (k v : List Char) (h : '=' ∉ k) :
    splitFirst '=' (k ++ '=' :: v) = (k, v) := by
  induction k with
  | nil => simp [splitFirst]
  | cons c rest ih =>
    simp only [List.mem_cons] at h
    push_neg at h
    have hc : ¬c = '=' := fun hh => h.1 hh.symm
    have ih' := ih h.2
    simp only [List.cons_append, splitFirst, if_neg hc, List.append_eq, ih']

theorem splitOn_comma_first (first rest : List Char) (h : ',' ∉ first) :
    (first ++ ',' :: rest).splitOn ',' = first :: rest.splitOn ',' := by
  simp only [List.splitOn]
  exact List.splitOnP_first _ first
    (by intro x hx; simp only [beq_iff_eq]; intro he; exact h (he ▸ hx)) ',' (by simp) rest

theorem splitOn_comma_single (l : List Char) (h : ',' ∉ l) :
    l.splitOn ',' = [l] := by
  simp only [List.splitOn]
  exact List.splitOnP_eq_single _ l
    (by intro x hx; simp only [beq_iff_eq]; intro he; exact h (he ▸ hx))

/-! ## Lemmas about the attribute parser -/

theorem processSegment_skip (acc : List (String × String)) (seg : List Char)
    (h : '=' ∉ seg) : processSegment acc seg = acc := by
  simp [processSegment, h]

theorem processSegment_clean (acc : List (String × String)) (p : String × String)
    (h : CleanPair p) : processSegment acc (segOf p) = dinsert acc p.1 p.2 := by
  obtain ⟨⟨hk1, hk2, hk3⟩, hv1, hv2⟩ := h
  have hmem : '=' ∈ segOf p := by
    simp [segOf]
  rw [processSegment, if_pos hmem]
  show dinsert acc (String.mk (pyStrip (splitFirst '=' (segOf p)).1))
      (String.mk (pyStrip (splitFirst '=' (segOf p)).2)) = dinsert acc p.1 p.2
  rw [show segOf p = p.1.data ++ '=' :: p.2.data from rfl, splitFirst_sep _ _ hk2]
  rw [pyStrip_eq_self hk3, pyStrip_eq_self hv2]

theorem comma_not_mem_segOf (p : String × String) (h : CleanPair p) :
    ',' ∉ segOf p := by
  obtain ⟨⟨hk1, _, _⟩, hv1, _⟩ := h
  simp only [segOf, List.mem_append, List.mem_cons]
  push_neg
  exact ⟨hk1, by simp, hv1⟩

theorem foldl_processSegment_segs (ps : List (String × String))
    (h : ∀ p ∈ ps, CleanPair p) :
    ∀ acc, (ps.map segOf).foldl processSegment acc = dictUpdate acc ps := by
  induction ps with
  | nil => intro acc; rfl
  | cons p rest ih =>
    intro acc
    simp only [List.map_cons, List.foldl_cons]
    rw [processSegment_clean acc p (h p (List.mem_cons_self p rest))]
    rw [ih (fun q hq => h q (List.mem_cons_of_mem p hq)) (dinsert acc p.1 p.2)]
    rfl

theorem parseAttrs_segString (ps : List (String × String)) (hne : ps ≠ [])
    (h : ∀ p ∈ ps, CleanPair p) :
    parseAttrs (segString ps) = dictUpdate [] ps := by
  unfold parseAttrs segString
  rw [List.splitOn_intercalate (ps.map segOf) ','
    (by intro l hl
        obtain ⟨p, hp, rfl⟩ := List.mem_map.mp hl
        exact comma_not_mem_segOf p (h p hp))
    (by simpa using hne)]
  exact foldl_processSegment_segs ps h []

theorem nodup_keys_foldl_processSegment (segs : List (List Char)) :
    ∀ acc : List (String × String), ((acc.map Prod.fst).Nodup) →
    (((segs.foldl processSegment acc).map Prod.fst).Nodup) := by
  induction segs with
  | nil => intro acc h; exact h
  | cons seg rest ih =>
    intro acc h
    simp only [List.foldl_cons]
    apply ih
    unfold processSegment
    split
    · exact nodup_dkeys_dinsert _ _ _ h
    · exact h

theorem parseAttrs_nodup_keys (s : List Char) :
    ((parseAttrs s).map Prod.fst).Nodup :=
  nodup_keys_foldl_processSegment (s.splitOn ',') [] (by simp)

theorem parse_k8s_nodup_keys (env : Env) :
    ((_parse_k8s_resource_attributes env).map Prod.fst).Nodup := by
  unfold _parse_k8s_resource_attributes
  by_cases h : getenvD env "OTEL_RESOURCE_ATTRIBUTES" "" = "" <;>
    simp [h, parseAttrs_nodup_keys]

/-! ## Lemmas about endpoint normalization and provider setup -/

theorem normalizeEndpoint_ends_with (sfx e : List Char) :
    sfx <:+ normalizeEndpoint sfx e := by
  unfold normalizeEndpoint
  split
  · assumption
  · exact List.suffix_append _ _

theorem normalizeEndpoint_of_suffix (sfx e : List Char) (h : sfx <:+ e) :
    normalizeEndpoint sfx e = e := by
  simp [normalizeEndpoint, h]

theorem normalizeEndpoint_idem (sfx e : List Char) :
    normalizeEndpoint sfx (normalizeEndpoint sfx e) = normalizeEndpoint sfx e :=
  normalizeEndpoint_of_suffix sfx _ (normalizeEndpoint_ends_with sfx e)

theorem get_resource_ne_nil (env : Env) : get_resource env ≠ [] := by
  unfold get_resource
  apply dictUpdate_ne_nil
  simp

theorem setup_tracing_of_probe (env : Env) (mk : List Char → Except String Unit)
    (s : OtelState) (h : tracerProviderHasResource s = true) :
    setup_tracing env mk s = s := by
  unfold setup_tracing
  rw [h]
  simp

theorem setup_metrics_of_probe (env : Env) (mk : List Char → Except String Unit)
    (s : OtelState) (h : meterProviderHasResource s = true) :
    setup_metrics env mk s = s := by
  unfold setup_metrics
  rw [h]
  simp

theorem tracerProbe_after_setup_tracing (env : Env)
    (mk : List Char → Except String Unit) (s : OtelState) :
    tracerProviderHasResource (setup_tracing env mk s) = true := by
  unfold setup_tracing
  by_cases h : tracerProviderHasResource s = true
  · simp only [h, if_true]
  · rw [Bool.not_eq_true] at h
    simp only [h, Bool.false_eq_true, if_false]
    have hres : (get_resource env).isEmpty = false := by
      cases hconf : get_resource env with
      | nil => exact absurd hconf (get_resource_ne_nil env)
      | cons a t => rfl
    cases he : truthyEnv env "OTEL_EXPORTER_OTLP_ENDPOINT" with
    | some e =>
      cases hmk : mk (normalizeEndpoint tracesSuffix e.data) <;>
        simp [hmk, tracerProviderHasResource, hres]
    | none => simp [tracerProviderHasResource, hres]

theorem meterProbe_after_setup_metrics (env : Env)
    (mk : List Char → Except String Unit) (s : OtelState) :
    meterProviderHasResource (setup_metrics env mk s) = true := by
  unfold setup_metrics
  by_cases h : meterProviderHasResource s = true
  · simp only [h, if_true]
  · rw [Bool.not_eq_true] at h
    simp only [h, Bool.false_eq_true, if_false]
    have hres : (get_resource env).isEmpty = false := by
      cases hconf : get_resource env with
      | nil => exact absurd hconf (get_resource_ne_nil env)
      | cons a t => rfl
    cases he : truthyEnv env "OTEL_EXPORTER_OTLP_ENDPOINT" with
    | some e =>
      cases hmk : mk (normalizeEndpoint metricsSuffix e.data) <;>
        simp [hmk, meterProviderHasResource, hres]
    | none => simp [meterProviderHasResource, hres]

theorem isEmpty_false_of_ne_nil {α : Type} {l : List α} (h : l ≠ []) :
    l.isEmpty = false := by
  cases l with
  | nil => exact absurd rfl h
  | cons a t => rfl

/-! ## Claims -/

/-- C1: provider configuration is idempotent per signal.  If a tracer
(resp. meter) provider carrying a non-empty resource is already installed,
`setup_tracing` (resp. `setup_metrics`) returns the state unchanged — the
"already has a resource" probe fires before any exporter is constructed or
any provider is re-set.  Consequently a second call after any first call
is a no-op, so at most one set of exporters is ever registered per signal
per process. -/
theorem claim_c1_provider_idempotent :
    (∀ (env : Env) (mk : List Char → Except String Unit) (s : OtelState)
       (p : TracerProviderSt), s.tracer_provider = some p → p.resource ≠ [] →
       setup_tracing env mk s = s) ∧
    (∀ (env : Env) (mk : List Char → Except String Unit) (s : OtelState)
       (q : MeterProviderSt), s.meter_provider = some q → q.resource ≠ [] →
       setup_metrics env mk s = s) ∧
    (∀ (env : Env) (mk : List Char → Except String Unit) (s : OtelState),
       setup_tracing env mk (setup_tracing env mk s) = setup_tracing env mk s) ∧
    (∀ (env : Env) (mk : List Char → Except String Unit) (s : OtelState),
       setup_metrics env mk (setup_metrics env mk s) = setup_metrics env mk s) := by
  refine ⟨?_, ?_, ?_, ?_⟩
  · intro env mk s p hp hres
    apply setup_tracing_of_probe
    simp [tracerProviderHasResource, hp, isEmpty_false_of_ne_nil hres]
  · intro env mk s q hq hres
    apply setup_metrics_of_probe
    simp [meterProviderHasResource, hq, isEmpty_false_of_ne_nil hres]
  · intro env mk s
    exact setup_tracing_of_probe env mk _ (tracerProbe_after_setup_tracing env mk s)
  · intro env mk s
    exact setup_metrics_of_probe env mk _ (meterProbe_after_setup_metrics env mk s)

/-- Witness for C1 at concrete inputs: a configured state is left
untouched, and double configuration from the fresh state equals single
configuration. -/
theorem claim_c1_witness :
    setup_tracing envEmpty mkExporterOk stateConfigured = stateConfigured ∧
    setup_metrics envEmpty mkExporterOk stateConfigured = stateConfigured ∧
    setup_tracing envEmpty mkExporterOk (setup_tracing envEmpty mkExporterOk stateFresh) =
      setup_tracing envEmpty mkExporterOk stateFresh ∧
    setup_metrics envEmpty mkExporterOk (setup_metrics envEmpty mkExporterOk stateFresh) =
      setup_metrics envEmpty mkExporterOk stateFresh :=
  ⟨claim_c1_provider_idempotent.1 envEmpty mkExporterOk stateConfigured _ rfl (by decide),
   claim_c1_provider_idempotent.2.1 envEmpty mkExporterOk stateConfigured _ rfl (by decide),
   claim_c1_provider_idempotent.2.2.1 envEmpty mkExporterOk stateFresh,
   claim_c1_provider_idempotent.2.2.2 envEmpty mkExporterOk stateFresh⟩

/-- C2: when the OTLP endpoint variable is set (non-empty) and span
exporter construction raises, `setup_tracing` catches the exception and
registers the console exporter on the same newly created provider, and
returns normally (the function is total: the resulting state is fully
determined, no exception reaches the caller). -/
theorem claim_c2_exporter_failure_fallback :
    ∀ (env : Env) (e : String) (mk : List Char → Except String Unit)
      (err : String) (s : OtelState),
      env "OTEL_EXPORTER_OTLP_ENDPOINT" = some e → e ≠ "" →
      tracerProviderHasResource s = false →
      mk (normalizeEndpoint tracesSuffix e.data) = Except.error err →
      setup_tracing env mk s =
        { tracer_provider := some { resource := get_resource env,
                                    span_processors := [ExporterKind.console] },
          meter_provider := s.meter_provider } := by
  intro env e mk err s henv hne hprobe hmk
  unfold setup_tracing
  have ht : truthyEnv env "OTEL_EXPORTER_OTLP_ENDPOINT" = some e := by
    simp [truthyEnv, henv, hne]
  simp only [hprobe, Bool.false_eq_true, if_false, ht, hmk]

/-- Witness for C2: endpoint set, constructor raising, fresh state. -/
theorem claim_c2_witness :
    setup_tracing envC2 mkExporterFail stateFresh =
      { tracer_provider := some { resource := get_resource envC2,
                                  span_processors := [ExporterKind.console] },
        meter_provider := Option.none } :=
  claim_c2_exporter_failure_fallback envC2 "http://collector:4317" mkExporterFail
    "boom" stateFresh rfl (by decide) rfl rfl

/-- C3 (code bug, evaluation at the failing input): with the skip flag
unset and the schema-migration command exiting 1, `setup_django` still
dispatches the static-collection command afterwards and returns 0 — the
claimed abort-and-propagate behaviour does not happen.  The cause:
`run_django_command` catches `CalledProcessError` and returns the exit
code, and the loop in `setup_django` discards that return value, making
its own `except CalledProcessError` clause unreachable. -/
theorem claim_c3_code_bug_eval :
    setup_django envEmpty exMigrateFails =
      (CmdOutcome.ret 0, [migrateCmd, collectstaticCmd]) ∧
    exMigrateFails ("opentelemetry-instrument" :: migrateCmd) = ExecResult.exited 1 ∧
    run_django_command exMigrateFails migrateCmd = CmdOutcome.ret 1 := by
  refine ⟨?_, ?_, ?_⟩ <;> rfl

/-- Counterexample to C4 as stated: with `OTEL_SERVICE_NAME=foo` and
`OTEL_RESOURCE_ATTRIBUTES="service.name=bar"`, both resource builders
resolve `service.name` to the parsed value `bar`, not to the explicit
named variable's `foo` — so explicit named environment variables do NOT
override parsed entries. -/
theorem claim_c4_counterexample :
    getenvD envC4 "OTEL_SERVICE_NAME" "django-application" = "foo" ∧
    dget (get_resource_attributes envC4) "service.name" = some "bar" ∧
    dget (get_resource envC4) "service.name" = some "bar" ∧
    (some "bar" : Option String) ≠ some "foo" := by
  refine ⟨rfl, by decide, by decide, by decide⟩

/-- C4 (amended): the precedence in `utils.get_resource_attributes` is —
entries parsed from `OTEL_RESOURCE_ATTRIBUTES` override everything, i.e.
the final mapping resolves a key to its parsed value when the key was
parsed, and only otherwise to the base value derived from the explicit
named environment variables (which in turn carry the fixed defaults). -/
theorem claim_c4_amended_precedence :
    ∀ (env : Env) (k : String),
      dget (get_resource_attributes env) k =
        match dget (_parse_k8s_resource_attributes env) k with
        | some v => some v
        | Option.none => dget (utilsBaseAttributes env) k := by
  intro env k
  unfold get_resource_attributes
  rw [dget_dictUpdate]
  rw [lookupLast_eq_dget _ _ (parse_k8s_nodup_keys env)]

/-- C5: the resource-attribute parser maps every canonical comma-separated
`key=value` string back to exactly its pairs (splitting on commas, then on
the first `=`, trimming whitespace); a segment without `=` is skipped
without effect; whitespace around key and value is trimmed; the empty
input yields no parsed entries, leaving the default mapping unchanged. -/
theorem claim_c5_attr_parsing :
    (∀ ps : List (String × String), ps ≠ [] → (ps.map Prod.fst).Nodup →
       (∀ p ∈ ps, CleanPair p) → parseAttrs (segString ps) = ps) ∧
    (∀ (acc : List (String × String)) (seg : List Char),
       '=' ∉ seg → processSegment acc seg = acc) ∧
    parseAttrs "a=1,b=2".data = [("a", "1"), ("b", "2")] ∧
    parseAttrs "a=1,bad,b=2".data = [("a", "1"), ("b", "2")] ∧
    parseAttrs " a = 1 ".data = [("a", "1")] ∧
    parseAttrs [] = [] ∧
    (∀ env : Env, getenvD env "OTEL_RESOURCE_ATTRIBUTES" "" = "" →
       get_resource_attributes env = utilsBaseAttributes env) := by
  refine ⟨?_, processSegment_skip, by decide, by decide, by decide, rfl, ?_⟩
  · intro ps hne hnodup hclean
    rw [parseAttrs_segString ps hne hclean, dictUpdate_nil_of_nodup ps hnodup]
  · intro env h
    unfold get_resource_attributes
    rw [show _parse_k8s_resource_attributes env = [] by
      simp [_parse_k8s_resource_attributes, h]]
    exact dictUpdate_nil _

/-- Witness for C5 at concrete inputs. -/
theorem claim_c5_witness :
    parseAttrs (segString [("a", "1"), ("b", "2")]) = [("a", "1"), ("b", "2")] ∧
    processSegment [] "bad".data = [] ∧
    get_resource_attributes envEmpty = utilsBaseAttributes envEmpty :=
  ⟨claim_c5_attr_parsing.1 [("a", "1"), ("b", "2")] (by decide) (by decide) (by decide),
   claim_c5_attr_parsing.2.1 [] "bad".data (by decide),
   claim_c5_attr_parsing.2.2.2.2.2.2 envEmpty rfl⟩

/-- C6: client-IP extraction returns the first comma-separated entry of
the forwarded-for header, with surrounding whitespace trimmed, whenever
that header is present and non-empty (whether or not a comma occurs);
otherwise it returns the direct remote address. -/
theorem claim_c6_client_ip :
    (∀ (meta : RequestMeta) (x : String) (first rest : List Char),
       meta.http_x_forwarded_for = some x → x ≠ "" →
       x.data = first ++ ',' :: rest → ',' ∉ first →
       get_client_ip meta = String.mk (pyStrip first)) ∧
    (∀ (meta : RequestMeta) (x : String),
       meta.http_x_forwarded_for = some x → x ≠ "" → ',' ∉ x.data →
       get_client_ip meta = String.mk (pyStrip x.data)) ∧
    (∀ (meta : RequestMeta) (r : String),
       (meta.http_x_forwarded_for = Option.none ∨ meta.http_x_forwarded_for = some "") →
       meta.remote_addr = some r →
       get_client_ip meta = r) := by
  refine ⟨?_, ?_, ?_⟩
  · intro meta x first rest hx hne hsplit hfirst
    unfold get_client_ip
    simp only [hx, if_neg hne, hsplit, splitOn_comma_first first rest hfirst,
      List.headD_cons]
  · intro meta x hx hne hcomma
    unfold get_client_ip
    simp only [hx, if_neg hne, splitOn_comma_single x.data hcomma, List.headD_cons]
  · intro meta r hxf hr
    unfold get_client_ip
    rcases hxf with h | h
    · simp [h, hr]
    · simp [h, hr]

/-- Witness for C6 at the spec's concrete inputs. -/
theorem claim_c6_witness :
    get_client_ip ⟨some "10.0.0.1, 192.168.1.1", some "192.168.1.2"⟩ = "10.0.0.1" ∧
    get_client_ip ⟨Option.none, some "192.168.1.2"⟩ = "192.168.1.2" := by
  constructor
  · have h := claim_c6_client_ip.1 ⟨some "10.0.0.1, 192.168.1.1", some "192.168.1.2"⟩
      "10.0.0.1, 192.168.1.1" "10.0.0.1".data (' ' :: "192.168.1.1".data)
      rfl (by decide) (by decide) (by decide)
    exact h.trans (by decide)
  · exact claim_c6_client_ip.2.2 ⟨Option.none, some "192.168.1.2"⟩ "192.168.1.2"
      (Or.inl rfl) rfl

/-- C7 (spec-modelled): user-id and username extraction return the empty
string for a missing user object and for one whose `is_authenticated`
flag is false, and the real values only for an authenticated user; both
functions are total, so they never raise. -/
theorem claim_c7_user_extraction :
    (∀ u : Option UserObj,
       u = Option.none ∨ (∃ x, u = some x ∧ x.is_authenticated = false) →
       get_user_id u = "" ∧ get_username u = "") ∧
    (∀ x : UserObj, x.is_authenticated = true →
       get_user_id (some x) = toString x.user_id ∧
       get_username (some x) = x.username) := by
  constructor
  · rintro u (rfl | ⟨x, rfl, hx⟩)
    · exact ⟨rfl, rfl⟩
    · simp [get_user_id, get_username, hx]
  · intro x hx
    simp [get_user_id, get_username, hx]

/-- Witness for C7 at the tests' concrete inputs. -/
theorem claim_c7_witness :
    get_user_id (some ⟨false, 123, "testuser"⟩) = "" ∧
    get_username (some ⟨false, 123, "testuser"⟩) = "" ∧
    get_user_id Option.none = "" ∧
    get_user_id (some ⟨true, 123, "testuser"⟩) = "123" :=
  ⟨(claim_c7_user_extraction.1 _ (Or.inr ⟨_, rfl, rfl⟩)).1,
   (claim_c7_user_extraction.1 _ (Or.inr ⟨_, rfl, rfl⟩)).2,
   (claim_c7_user_extraction.1 _ (Or.inl rfl)).1,
   ((claim_c7_user_extraction.2 ⟨true, 123, "testuser"⟩ rfl).1).trans (by decide)⟩

/-- C8 (spec-modelled): a primitive scalar value reaches
`span.set_attribute` unchanged, a composite value is first converted to
its Python string form, so the span never receives a raw composite value;
in particular the dict with entry key/value arrives as the 16-character
string consisting of an opening brace, quoted `key`, colon-space, quoted
`value` and a closing brace. -/
theorem claim_c8_attribute_safety :
    (∀ (k : String) (v : PyValue), isPrimitiveScalar v = true →
       safe_set_attribute k v = (k, v)) ∧
    (∀ (k : String) (v : PyValue), isPrimitiveScalar v = false →
       safe_set_attribute k v = (k, PyValue.str (String.mk (pyRepr v)))) ∧
    (∀ (k : String) (v : PyValue),
       isPrimitiveScalar (safe_set_attribute k v).2 = true) ∧
    safe_set_attribute "dict_attr" (PyValue.dict [("key", PyValue.str "value")]) =
      ("dict_attr", PyValue.str (String.mk [lcurly, squote, 'k', 'e', 'y', squote,
        ':', ' ', squote, 'v', 'a', 'l', 'u', 'e', squote, rcurly])) := by
  refine ⟨?_, ?_, ?_, rfl⟩
  · intro k v h
    simp [safe_set_attribute, h]
  · intro k v h
    simp [safe_set_attribute, h]
  · intro k v
    by_cases h : isPrimitiveScalar v = true
    · simp [safe_set_attribute, h]
    · rw [Bool.not_eq_true] at h
      have h' : ¬isPrimitiveScalar v = true := by simp [h]
      unfold safe_set_attribute
      rw [if_neg h']
      rfl

/-- Witness for C8 at the tests' concrete inputs. -/
theorem claim_c8_witness :
    safe_set_attribute "str_attr" (PyValue.str "test") = ("str_attr", PyValue.str "test") ∧
    safe_set_attribute "list_attr" (PyValue.list [PyValue.int 1, PyValue.int 2, PyValue.int 3]) =
      ("list_attr", PyValue.str (String.mk (pyRepr
        (PyValue.list [PyValue.int 1, PyValue.int 2, PyValue.int 3])))) :=
  ⟨claim_c8_attribute_safety.1 "str_attr" (PyValue.str "test") rfl,
   claim_c8_attribute_safety.2.1 "list_attr"
     (PyValue.list [PyValue.int 1, PyValue.int 2, PyValue.int 3]) rfl⟩

/-- C9: `get_coralogix_headers` always returns exactly the three keys
Authorization, CX-Application-Name, CX-Subsystem-Name (the function is
total, so it never raises and never omits a header), and an unset
`CORALOGIX_PRIVATE_KEY` yields the literal Authorization value
"Bearer None". -/
theorem claim_c9_coralogix_headers :
    (∀ env : Env, (get_coralogix_headers env).map Prod.fst =
       ["Authorization", "CX-Application-Name", "CX-Subsystem-Name"]) ∧
    (∀ env : Env, env "CORALOGIX_PRIVATE_KEY" = Option.none →
       dget (get_coralogix_headers env) "Authorization" = some "Bearer None") := by
  constructor
  · intro env
    rfl
  · intro env h
    simp [get_coralogix_headers, dget, h, pyStrOfOpt]

/-- Witness for C9 in the empty environment. -/
theorem claim_c9_witness :
    (get_coralogix_headers envEmpty).map Prod.fst =
      ["Authorization", "CX-Application-Name", "CX-Subsystem-Name"] ∧
    dget (get_coralogix_headers envEmpty) "Authorization" = some "Bearer None" :=
  ⟨claim_c9_coralogix_headers.1 envEmpty, claim_c9_coralogix_headers.2 envEmpty rfl⟩

/-- C10: for every non-empty endpoint, the normalized trace (resp.
metric) endpoint ends with "/v1/traces" (resp. "/v1/metrics"); an
endpoint already carrying the suffix passes through unchanged, and the
normalization is idempotent. -/
theorem claim_c10_endpoint_normalization :
    ∀ e : List Char, e ≠ [] →
      (tracesSuffix <:+ normalizeEndpoint tracesSuffix e ∧
       (tracesSuffix <:+ e → normalizeEndpoint tracesSuffix e = e) ∧
       normalizeEndpoint tracesSuffix (normalizeEndpoint tracesSuffix e) =
         normalizeEndpoint tracesSuffix e) ∧
      (metricsSuffix <:+ normalizeEndpoint metricsSuffix e ∧
       (metricsSuffix <:+ e → normalizeEndpoint metricsSuffix e = e) ∧
       normalizeEndpoint metricsSuffix (normalizeEndpoint metricsSuffix e) =
         normalizeEndpoint metricsSuffix e) := by
  intro e he
  exact ⟨⟨normalizeEndpoint_ends_with tracesSuffix e,
          normalizeEndpoint_of_suffix tracesSuffix e,
          normalizeEndpoint_idem tracesSuffix e⟩,
         ⟨normalizeEndpoint_ends_with metricsSuffix e,
          normalizeEndpoint_of_suffix metricsSuffix e,
          normalizeEndpoint_idem metricsSuffix e⟩⟩

/-- Witness for C10 at a concrete endpoint. -/
theorem claim_c10_witness :
    tracesSuffix <:+ normalizeEndpoint tracesSuffix "http://collector:4317".data ∧
    normalizeEndpoint tracesSuffix "http://collector:4317/v1/traces".data =
      "http://collector:4317/v1/traces".data ∧
    metricsSuffix <:+ normalizeEndpoint metricsSuffix "http://collector:4317".data :=
  ⟨((claim_c10_endpoint_normalization "http://collector:4317".data (by decide)).1).1,
   ((claim_c10_endpoint_normalization "http://collector:4317/v1/traces".data
      (by decide)).1).2.1 (by decide),
   ((claim_c10_endpoint_normalization "http://collector:4317".data (by decide)).2).1⟩
